import Mathlib

/-!
Shallow embedding of the write path of the opendal object-storage layer:

* src/object/writer.rs — the streaming write adapter (ObjectWriter), a
  3-state cooperative state machine over a backend block writer, plus the
  blocking adapter (BlockingObjectWriter);
* src/services/oss/error.rs — the OSS backend error translator
  (parse_error), mapping a response status plus body to a normalized error.

External collaborators (the backend block writer, the futures runtime, the
quick-xml deserializer) are modelled at their interface boundary: a polled
future either stays pending, completes with its value, or completes with a
backend error; the XML parser is an explicit function parameter; the lossy
UTF-8 decoder of the Rust standard library is implemented concretely.
-/

set_option autoImplicit false

namespace Opendal

/-! ### Error taxonomy and normalized error values (crate::Error) -/

inductive ErrorKind where
  | ObjectNotFound
  | ObjectPermissionDenied
  | Unexpected
deriving DecidableEq, Repr

/-- Normalized error value. The `temporary` flag is what the spec calls the
retryable verdict: `Error::set_temporary` marks an error retryable. -/
structure Error where
  kind : ErrorKind
  message : String
  context : List (String × String)
  temporary : Bool
deriving DecidableEq, Repr

def Error.new (kind : ErrorKind) (message : String) : Error :=
  { kind := kind, message := message, context := [], temporary := false }

def Error.with_context (e : Error) (key value : String) : Error :=
  { e with context := e.context ++ [(key, value)] }

def Error.set_temporary (e : Error) : Error :=
  { e with temporary := true }

/-! ### OSS structured error document (struct OssError in error.rs) -/

structure OssError where
  code : String
  message : String
  request_id : String
  host_id : String
deriving DecidableEq, Repr

/-- Rendering of the parsed document into the message, mirroring the
derived Debug formatting used by format of oss_err in parse_error.
Debug escaping of special characters inside the field values is elided. -/
def ossErrorDebug (o : OssError) : String :=
  "OssError \x7b code: \"" ++ o.code ++ "\", message: \"" ++ o.message ++
    "\", request_id: \"" ++ o.request_id ++ "\", host_id: \"" ++ o.host_id ++ "\" \x7d"

/-! ### Lossy UTF-8 decoding (String::from_utf8_lossy)

Implemented concretely, byte list to char list, replacing each maximal
invalid subpart with U+FFFD and re-examining the offending byte, as the
Rust standard library does. The fuel argument is the remaining input
length, so the recursion is structural. -/

def replChar : Char := Char.ofNat 0xFFFD

def utf8DecodeLossyAux : Nat → List Nat → List Char
  | 0, _ => []
  | _ + 1, [] => []
  | fuel + 1, b :: rest =>
    if b < 0x80 then
      Char.ofNat b :: utf8DecodeLossyAux fuel rest
    else if 0xC2 ≤ b ∧ b ≤ 0xDF then
      match rest with
      | [] => [replChar]
      | c1 :: rest2 =>
        if 0x80 ≤ c1 ∧ c1 ≤ 0xBF then
          Char.ofNat ((b - 0xC0) * 0x40 + (c1 - 0x80)) :: utf8DecodeLossyAux fuel rest2
        else
          replChar :: utf8DecodeLossyAux fuel rest
    else if 0xE0 ≤ b ∧ b ≤ 0xEF then
      match rest with
      | [] => [replChar]
      | c1 :: rest2 =>
        if (if b = 0xE0 then 0xA0 else 0x80) ≤ c1 ∧ c1 ≤ (if b = 0xED then 0x9F else 0xBF) then
          match rest2 with
          | [] => [replChar]
          | c2 :: rest3 =>
            if 0x80 ≤ c2 ∧ c2 ≤ 0xBF then
              Char.ofNat ((b - 0xE0) * 0x1000 + (c1 - 0x80) * 0x40 + (c2 - 0x80)) ::
                utf8DecodeLossyAux fuel rest3
            else
              replChar :: utf8DecodeLossyAux fuel rest2
        else
          replChar :: utf8DecodeLossyAux fuel rest
    else if 0xF0 ≤ b ∧ b ≤ 0xF4 then
      match rest with
      | [] => [replChar]
      | c1 :: rest2 =>
        if (if b = 0xF0 then 0x90 else 0x80) ≤ c1 ∧ c1 ≤ (if b = 0xF4 then 0x8F else 0xBF) then
          match rest2 with
          | [] => [replChar]
          | c2 :: rest3 =>
            if 0x80 ≤ c2 ∧ c2 ≤ 0xBF then
              match rest3 with
              | [] => [replChar]
              | c3 :: rest4 =>
                if 0x80 ≤ c3 ∧ c3 ≤ 0xBF then
                  Char.ofNat ((b - 0xF0) * 0x40000 + (c1 - 0x80) * 0x1000 +
                      (c2 - 0x80) * 0x40 + (c3 - 0x80)) ::
                    utf8DecodeLossyAux fuel rest4
                else
                  replChar :: utf8DecodeLossyAux fuel rest3
            else
              replChar :: utf8DecodeLossyAux fuel rest2
        else
          replChar :: utf8DecodeLossyAux fuel rest
    else
      replChar :: utf8DecodeLossyAux fuel rest

def utf8Lossy (bs : List Nat) : String := String.mk (utf8DecodeLossyAux bs.length bs)

/-! ### The error translator (parse_error in src/services/oss/error.rs)

The status is a natural number; the named status constants of the source
are 404 (NOT_FOUND), 403 (FORBIDDEN), 500 (INTERNAL_SERVER_ERROR),
502 (BAD_GATEWAY), 503 (SERVICE_UNAVAILABLE) and 504 (GATEWAY_TIMEOUT).
The quick-xml deserialization of the body is an explicit function
parameter, since it is an external crate; the body itself is given as the
outcome of reading the response bytes, mirroring the fallible
body.bytes() call. -/

/-- Status to (kind, retryable) table, mirroring the match on parts.status. -/
def statusKindRetry (status : Nat) : ErrorKind × Bool :=
  if status = 404 then (ErrorKind.ObjectNotFound, false)
  else if status = 403 then (ErrorKind.ObjectPermissionDenied, false)
  else if status = 500 ∨ status = 502 ∨ status = 503 ∨ status = 504 then
    (ErrorKind.Unexpected, true)
  else (ErrorKind.Unexpected, false)

/-- Translate a failed backend response into a normalized error.
Mirrors parse_error: classify the status, render the body into the
message (parsed document if the parse succeeds, lossy decoding of the raw
bytes otherwise), attach the response parts as context, and mark the
error temporary when the status class is retryable. -/
def parse_error (parseOss : List Nat → Option OssError) (status : Nat)
    (partsDebug : String) (body : Except Error (List Nat)) : Except Error Error :=
  match body with
  | .error e => .error e
  | .ok bs =>
    let kr := statusKindRetry status
    let message :=
      match parseOss bs with
      | .some ossErr => ossErrorDebug ossErr
      | .none => utf8Lossy bs
    let err := (Error.new kr.1 message).with_context "response" partsDebug
    let err2 := if kr.2 then err.set_temporary else err
    .ok err2

def resultIsOk {ε α : Type} : Except ε α → Bool
  | .ok _ => true
  | .error _ => false

/-! ### The streaming write adapter (src/object/writer.rs)

The backend block writer (output::Writer) is opaque to the adapter; it is
modelled as a token carrying an identity. A boxed future is modelled by
the data its closure owns: the captured byte count and the block writer,
the writer slot becoming empty once the future has completed (on success
the writer is moved out to the Idle state, on failure it is dropped
inside the future). Polling an in-flight backend operation is driven by
an Outcome argument: the backend either leaves it pending, completes it,
or fails it with a normalized error — this is the interface boundary of
the external runtime and backend. -/

structure Writer where
  id : Nat
deriving DecidableEq, Repr

/-- The future stored in State::Write: the closure owns the byte count
captured when the append started and, until completion, the writer. -/
structure AppendFut where
  size : Nat
  w : Option Writer
deriving DecidableEq, Repr

/-- The future stored in State::Close. -/
structure CloseFut where
  w : Option Writer
deriving DecidableEq, Repr

/-- The state of an ObjectWriter session, mirroring enum State. -/
inductive State where
  | Idle : Option Writer → State
  | Write : AppendFut → State
  | Close : CloseFut → State
deriving DecidableEq, Repr

/-- What the backend does with the in-flight operation on this poll. -/
inductive Outcome where
  | pending
  | ok
  | err : Error → Outcome
deriving DecidableEq, Repr

/-- Result of one poll of the adapter: a panic (an unreachable assertion
or an expect failure), Poll::Pending, or Poll::Ready carrying the io
result; the session state after the call rides along. -/
inductive PollResult (α : Type) where
  | panic : String → PollResult α
  | pending : State → PollResult α
  | ready : State → Except Error α → PollResult α

def PollResult.isPanic {α : Type} : PollResult α → Bool
  | .panic _ => true
  | _ => false

def PollResult.nextState {α : Type} : PollResult α → Option State
  | .panic _ => none
  | .pending s => some s
  | .ready s _ => some s

/-- Poll the append future held in State::Write. A future whose writer
slot is empty has already completed; polling it again panics, as an
async block does when resumed after completion. On failure the state
keeps the exhausted future: the source returns the error without
restoring the Idle state. -/
def pollAppendFut (fut : AppendFut) (out : Outcome) : PollResult Nat :=
  match fut.w with
  | none => .panic "async fn resumed after completion"
  | some w =>
    match out with
    | .pending => .pending (.Write fut)
    | .ok => .ready (.Idle (some w)) (.ok fut.size)
    | .err e => .ready (.Write { fut with w := none }) (.error e)

/-- AsyncWrite::poll_write for ObjectWriter. From Idle the call takes the
writer, captures the buffer length, starts the append future and — since
the source loops — immediately polls it once; from Write it polls the
in-flight future; from Close it hits the unreachable assertion. -/
def ObjectWriter.poll_write (s : State) (buf : List Nat) (out : Outcome) : PollResult Nat :=
  match s with
  | .Idle Option.none => .panic "invalid state of writer: Idle state with empty write"
  | .Idle (Option.some w) => pollAppendFut { size := buf.length, w := some w } out
  | .Write fut => pollAppendFut fut out
  | .Close _ => .panic "invalid state of writer: poll_write with State::Close"

/-- AsyncWrite::poll_flush for ObjectWriter: every write is already
flushed, so this returns Ready(Ok(())) and leaves the state alone. -/
def ObjectWriter.poll_flush (s : State) : PollResult Unit :=
  .ready s (.ok ())

/-- Poll the close future held in State::Close. -/
def pollCloseFut (fut : CloseFut) (out : Outcome) : PollResult Unit :=
  match fut.w with
  | none => .panic "async fn resumed after completion"
  | some w =>
    match out with
    | .pending => .pending (.Close fut)
    | .ok => .ready (.Idle (some w)) (.ok ())
    | .err e => .ready (.Close { fut with w := none }) (.error e)

/-- AsyncWrite::poll_close for ObjectWriter. -/
def ObjectWriter.poll_close (s : State) (out : Outcome) : PollResult Unit :=
  match s with
  | .Idle Option.none => .panic "invalid state of writer: Idle state with empty write"
  | .Idle (Option.some w) => pollCloseFut { w := some w } out
  | .Write _ => .panic "invlia state of writer: poll_close with State::Write"
  | .Close fut => pollCloseFut fut out

/-- High-level async ObjectWriter::append: forwards to the block writer
when the state is Idle holding it, leaving the state unchanged; any other
state hits the unreachable assertion, modelled as none. The backend
parameter is the block writer append call being awaited. -/
def ObjectWriter.append (s : State) (bs : List Nat)
    (backend : List Nat → Except Error Unit) : Option (State × Except Error Unit) :=
  match s with
  | .Idle (Option.some _) => some (s, backend bs)
  | _ => none

/-- High-level async ObjectWriter::close, same discipline as append. -/
def ObjectWriter.close (s : State)
    (backend : Except Error Unit) : Option (State × Except Error Unit) :=
  match s with
  | .Idle (Option.some _) => some (s, backend)
  | _ => none

/-! ### The blocking write adapter (BlockingObjectWriter) -/

/-- io::Write::write for BlockingObjectWriter: forward the buffer to the
synchronous block writer append (whose result is the backend parameter),
report the buffer length on success, the error otherwise. -/
def BlockingObjectWriter.write (buf : List Nat)
    (appendResult : Except Error Unit) : Except Error Nat :=
  match appendResult with
  | .ok _ => .ok buf.length
  | .error e => .error e

/-- io::Write::flush for BlockingObjectWriter: Ok(()) with no work. -/
def BlockingObjectWriter.flush : Except Error Unit := .ok ()

/-! ### Session traces -/

/-- One invocation of the poll-driven interface together with the backend
behaviour observed during it. -/
inductive Op where
  | write : List Nat → Outcome → Op
  | flush : Op
  | close : Outcome → Op

/-- The state after one invocation, none when the invocation panics. -/
def step (s : State) : Op → Option State
  | .write buf out => (ObjectWriter.poll_write s buf out).nextState
  | .flush => (ObjectWriter.poll_flush s).nextState
  | .close out => (ObjectWriter.poll_close s out).nextState

/-- True when the invocation does not deliver a backend failure. -/
def Op.noErr : Op → Bool
  | .write _ (.err _) => false
  | .close (.err _) => false
  | _ => true

/-- States reachable from a fresh session through invocations whose ops
satisfy P. A fresh session, as built by ObjectWriter::create, is Idle
holding the block writer. -/
inductive ReachP (P : Op → Prop) : State → Prop where
  | init (w : Writer) : ReachP P (.Idle (some w))
  | next (s s' : State) (op : Op) :
      ReachP P s → P op → step s op = some s' → ReachP P s'

/-- Exactly-one-owner invariant over the state: Idle holds the writer, or
the in-flight append future still owns it, or the in-flight close future
still owns it. -/
def ownerInv : State → Bool
  | .Idle o => o.isSome
  | .Write fut => fut.w.isSome
  | .Close fut => fut.w.isSome

/-- The Idle state never has an empty writer slot. -/
def notIdleEmpty : State → Bool
  | .Idle Option.none => false
  | _ => true

def isIdle : State → Bool
  | .Idle _ => true
  | _ => false

/-- States in which the calling discipline permits poll_write: Idle with
the writer present, or Write whose future has not completed yet. -/
def writeReady : State → Bool
  | .Idle (Option.some _) => true
  | .Write fut => fut.w.isSome
  | _ => false

/-- States in which the calling discipline permits poll_close. -/
def closeReady : State → Bool
  | .Idle (Option.some _) => true
  | .Close fut => fut.w.isSome
  | _ => false

def isIdleSome : State → Bool
  | .Idle (Option.some _) => true
  | _ => false

/-! ### Closed form of the translator on an available body -/

/-- Helper: once the body bytes are available, parse_error produces
exactly one normalized error, assembled from the status table, the
rendered or decoded body, and the response context. -/
theorem parse_error_ok (parseOss : List Nat → Option OssError) (status : Nat)
    (partsDebug : String) (bs : List Nat) :
    parse_error parseOss status partsDebug (.ok bs) =
      .ok { kind := (statusKindRetry status).1,
            message :=
              match parseOss bs with
              | .some ossErr => ossErrorDebug ossErr
              | .none => utf8Lossy bs,
            context := [("response", partsDebug)],
            temporary := (statusKindRetry status).2 } := by
  unfold parse_error
  cases hkr : (statusKindRetry status).2 <;>
    simp [hkr, Error.new, Error.with_context, Error.set_temporary]

/-- C3: for every status code and every body, the error translator maps
status to (kind, retryable) exactly as: 404 yields (ObjectNotFound,
false); 403 yields (ObjectPermissionDenied, false); 500, 502, 503 and
504 yield (Unexpected, true); every other status yields (Unexpected,
false). -/
theorem oss_status_classification
    (parseOss : List Nat → Option OssError) (status : Nat)
    (partsDebug : String) (bs : List Nat) (e : Error)
    (h : parse_error parseOss status partsDebug (.ok bs) = .ok e) :
    (status = 404 → e.kind = ErrorKind.ObjectNotFound ∧ e.temporary = false) ∧
    (status = 403 → e.kind = ErrorKind.ObjectPermissionDenied ∧ e.temporary = false) ∧
    (status = 500 ∨ status = 502 ∨ status = 503 ∨ status = 504 →
      e.kind = ErrorKind.Unexpected ∧ e.temporary = true) ∧
    (status ≠ 404 ∧ status ≠ 403 ∧ status ≠ 500 ∧ status ≠ 502 ∧
        status ≠ 503 ∧ status ≠ 504 →
      e.kind = ErrorKind.Unexpected ∧ e.temporary = false) := by
  rw [parse_error_ok] at h
  injection h with h
  subst h
  refine ⟨?_, ?_, ?_, ?_⟩
  · rintro rfl; exact ⟨rfl, rfl⟩
  · rintro rfl; exact ⟨rfl, rfl⟩
  · rintro (rfl | rfl | rfl | rfl) <;> exact ⟨rfl, rfl⟩
  · rintro ⟨h1, h2, h3, h4, h5, h6⟩
    simp [statusKindRetry, h1, h2, h3, h4, h5, h6]

/-- Witness for C3: at status 503 with an empty unparsed body, the
translator yields kind Unexpected and a retryable (temporary) error. -/
theorem oss_status_classification_wit :
    ({ kind := ErrorKind.Unexpected, message := utf8Lossy [],
       context := [("response", "")], temporary := true } : Error).kind =
        ErrorKind.Unexpected ∧
    ({ kind := ErrorKind.Unexpected, message := utf8Lossy [],
       context := [("response", "")], temporary := true } : Error).temporary = true :=
  (oss_status_classification (fun _ => Option.none) 503 "" [] _
      (parse_error_ok (fun _ => Option.none) 503 "" [])).2.2.1
    (Or.inr (Or.inr (Or.inl rfl)))

/-- C4: the error translator is total: for every (status, body) pair,
including unmapped statuses such as 999 and an empty body, it returns a
normalized error value and never fails the translation itself; the only
error it can propagate is a failure to read the body bytes, which it
passes through verbatim. -/
theorem parse_error_total :
    (∀ (parseOss : List Nat → Option OssError) (status : Nat)
        (partsDebug : String) (bs : List Nat),
      resultIsOk (parse_error parseOss status partsDebug (.ok bs)) = true) ∧
    (∀ (parseOss : List Nat → Option OssError) (status : Nat)
        (partsDebug : String) (e : Error),
      parse_error parseOss status partsDebug (.error e) = .error e) := by
  constructor
  · intro parseOss status partsDebug bs
    rw [parse_error_ok]
    rfl
  · intro parseOss status partsDebug e
    rfl

/-- C6 counterexample: at status 999 with an empty body that does not
parse as the structured error document (quick-xml fails on empty input),
the translation succeeds but the message is the lossy decoding of zero
bytes, which is the empty string — so the message can be empty, contrary
to the claim that it never is. -/
theorem empty_body_empty_message_cex :
    (parse_error (fun _ => Option.none) 999 "" (.ok [])).map Error.message =
      Except.ok "" := by
  rw [parse_error_ok]
  rfl

/-- C6 (amended): for every body that does not parse as the structured
error document, the message equals the lossy UTF-8 decoding of the raw
body bytes, and the translation never fails; if the body does parse, the
parsed fields are rendered into the message. The message is empty exactly
when that decoding is empty (for instance on an empty body). -/
theorem message_fallback (parseOss : List Nat → Option OssError) (status : Nat)
    (partsDebug : String) (bs : List Nat) :
    (parse_error parseOss status partsDebug (.ok bs)).map Error.message =
      Except.ok (match parseOss bs with
        | .some ossErr => ossErrorDebug ossErr
        | .none => utf8Lossy bs) := by
  rw [parse_error_ok]
  rfl

/-- C7: for every status and every pair of bodies (whether or not either
parses as the structured document, and whatever the response context),
the retryable (temporary) verdict of the translation is the same: it
depends only on the status code. -/
theorem retryable_body_independent
    (parse1 parse2 : List Nat → Option OssError) (status : Nat)
    (p1 p2 : String) (b1 b2 : List Nat) (e1 e2 : Error)
    (h1 : parse_error parse1 status p1 (.ok b1) = .ok e1)
    (h2 : parse_error parse2 status p2 (.ok b2) = .ok e2) :
    e1.temporary = e2.temporary := by
  rw [parse_error_ok] at h1 h2
  injection h1 with h1
  injection h2 with h2
  subst h1
  subst h2
  rfl

/-- Witness for C7: at status 503, a body that parses and a body that
does not get the same retryable verdict. -/
theorem retryable_body_independent_wit :
    ({ kind := ErrorKind.Unexpected,
       message := ossErrorDebug { code := "AccessDenied", message := "denied",
                                  request_id := "rid", host_id := "hid" },
       context := [("response", "")], temporary := true } : Error).temporary =
    ({ kind := ErrorKind.Unexpected, message := utf8Lossy [],
       context := [("response", "")], temporary := true } : Error).temporary :=
  retryable_body_independent
    (fun _ => Option.some { code := "AccessDenied", message := "denied",
                            request_id := "rid", host_id := "hid" })
    (fun _ => Option.none) 503 "" "" [60] [] _ _
    (parse_error_ok _ 503 "" [60]) (parse_error_ok _ 503 "" [])

/-! ### Streaming adapter theorems -/

/-- C1 counterexample: from a Writing session whose append fails on this
poll, poll_write surfaces the error but the session does not return to
Idle: it stays in Write holding the exhausted future, and the next write
call on the same session panics instead of starting a fresh append. -/
theorem poll_write_error_not_idle_cex :
    ObjectWriter.poll_write (State.Write { size := 5, w := some { id := 0 } }) []
        (Outcome.err (Error.new ErrorKind.Unexpected "backend 503")) =
      PollResult.ready (State.Write { size := 5, w := none })
        (Except.error (Error.new ErrorKind.Unexpected "backend 503")) ∧
    isIdle (State.Write { size := 5, w := none }) = false ∧
    (ObjectWriter.poll_write (State.Write { size := 5, w := none }) [1]
        Outcome.ok).isPanic = true :=
  ⟨rfl, rfl, rfl⟩

/-- C1 (amended): if the in-progress append fails while the session is in
the Writing state, poll_write surfaces the error to the caller, but the
session state stays in Write holding the completed future — the Block
Writer is dropped inside it — and every subsequent write call on the same
session panics by polling the completed future: failure does poison the
session. -/
theorem poll_write_error_poisons_session (sz : Nat) (w : Writer)
    (buf : List Nat) (e : Error) :
    ObjectWriter.poll_write (State.Write { size := sz, w := some w }) buf
        (Outcome.err e) =
      PollResult.ready (State.Write { size := sz, w := none }) (Except.error e) ∧
    ∀ (buf2 : List Nat) (out : Outcome),
      (ObjectWriter.poll_write (State.Write { size := sz, w := none }) buf2
          out).isPanic = true :=
  ⟨rfl, fun _ _ => rfl⟩

/-- C5: byte-count fidelity. A write accepted from Idle that completes on
the same poll reports the buffer length; a write left pending captures
the buffer length in the in-flight future; polling while still pending
preserves that count; the poll at which the append completes reports the
captured count, whatever buffer that later call passes; and the blocking
adapter reports the buffer length on success. -/
theorem write_byte_count_fidelity :
    (∀ (w : Writer) (buf : List Nat),
      ObjectWriter.poll_write (State.Idle (some w)) buf Outcome.ok =
        PollResult.ready (State.Idle (some w)) (Except.ok buf.length)) ∧
    (∀ (w : Writer) (buf : List Nat),
      ObjectWriter.poll_write (State.Idle (some w)) buf Outcome.pending =
        PollResult.pending (State.Write { size := buf.length, w := some w })) ∧
    (∀ (sz : Nat) (w : Writer) (buf2 : List Nat),
      ObjectWriter.poll_write (State.Write { size := sz, w := some w }) buf2
          Outcome.pending =
        PollResult.pending (State.Write { size := sz, w := some w })) ∧
    (∀ (sz : Nat) (w : Writer) (buf2 : List Nat),
      ObjectWriter.poll_write (State.Write { size := sz, w := some w }) buf2
          Outcome.ok =
        PollResult.ready (State.Idle (some w)) (Except.ok sz)) ∧
    (∀ (buf : List Nat),
      BlockingObjectWriter.write buf (.ok ()) = .ok buf.length) :=
  ⟨fun _ _ => rfl, fun _ _ => rfl, fun _ _ _ => rfl, fun _ _ _ => rfl, fun _ => rfl⟩

/-- C8: usage-contract violations are unrecoverable assertions: every
poll_write on a Closing session panics, every poll_close on a Writing
session panics, and under the calling discipline — polling write only
from Idle-with-writer or a not-yet-completed Writing session, polling
close only from Idle-with-writer or a not-yet-completed Closing session —
no invocation ever panics. -/
theorem contract_violation_panics :
    (∀ (fut : CloseFut) (buf : List Nat) (out : Outcome),
      (ObjectWriter.poll_write (State.Close fut) buf out).isPanic = true) ∧
    (∀ (fut : AppendFut) (out : Outcome),
      (ObjectWriter.poll_close (State.Write fut) out).isPanic = true) ∧
    (∀ (s : State) (buf : List Nat) (out : Outcome), writeReady s = true →
      (ObjectWriter.poll_write s buf out).isPanic = false) ∧
    (∀ (s : State) (out : Outcome), closeReady s = true →
      (ObjectWriter.poll_close s out).isPanic = false) := by
  refine ⟨fun _ _ _ => rfl, fun _ _ => rfl, ?_, ?_⟩
  · intro s buf out h
    cases s with
    | Idle ow =>
      cases ow with
      | none => simp [writeReady] at h
      | some w => cases out <;> rfl
    | Write fut =>
      cases hw : fut.w with
      | none => simp [writeReady, hw] at h
      | some w =>
        cases out <;>
          simp [ObjectWriter.poll_write, pollAppendFut, hw, PollResult.isPanic]
    | Close fut => simp [writeReady] at h
  · intro s out h
    cases s with
    | Idle ow =>
      cases ow with
      | none => simp [closeReady] at h
      | some w => cases out <;> rfl
    | Write fut => simp [closeReady] at h
    | Close fut =>
      cases hw : fut.w with
      | none => simp [closeReady, hw] at h
      | some w =>
        cases out <;>
          simp [ObjectWriter.poll_close, pollCloseFut, hw, PollResult.isPanic]

/-- Witness for C8: concrete instances of each conjunct, with the
discipline hypotheses discharged at Idle sessions holding the writer. -/
theorem contract_violation_panics_wit :
    (ObjectWriter.poll_write (State.Close { w := some { id := 0 } }) [1]
        Outcome.ok).isPanic = true ∧
    (ObjectWriter.poll_close (State.Write { size := 3, w := some { id := 0 } })
        Outcome.ok).isPanic = true ∧
    (ObjectWriter.poll_write (State.Idle (some { id := 0 })) [1]
        Outcome.ok).isPanic = false ∧
    (ObjectWriter.poll_close (State.Idle (some { id := 0 }))
        Outcome.ok).isPanic = false :=
  ⟨contract_violation_panics.1 _ _ _,
   contract_violation_panics.2.1 _ _,
   contract_violation_panics.2.2.1 _ [1] _ rfl,
   contract_violation_panics.2.2.2 _ _ rfl⟩

/-- Number of flush invocations applied in sequence. -/
def flushStep (s : State) : State :=
  match (ObjectWriter.poll_flush s).nextState with
  | some t => t
  | none => s

def flushN : Nat → State → State
  | 0, s => s
  | n + 1, s => flushN n (flushStep s)

/-- C9: flush is a guaranteed-success no-op: for every session state,
poll_flush returns Ready(Ok(())) immediately and leaves the state — and
with it the Block Writer — unchanged; the blocking flush returns Ok(());
and any number of flushes in a row leaves the session state exactly as it
was, so no subsequent write or close can be affected. -/
theorem flush_noop :
    (∀ (s : State), ObjectWriter.poll_flush s = PollResult.ready s (.ok ())) ∧
    (BlockingObjectWriter.flush = .ok ()) ∧
    (∀ (n : Nat) (s : State), flushN n s = s) := by
  refine ⟨fun _ => rfl, rfl, ?_⟩
  intro n
  induction n with
  | zero => intro s; rfl
  | succ k ih => intro s; exact ih s

/-- C10: the high-level async ObjectWriter::append and ObjectWriter::close
succeed only when the session state is Idle holding the Block Writer, in
which case they forward to the block writer and leave the state unchanged;
in every other state — including Write or Close states left behind by the
poll-based interface — they hit the unreachable assertion, modelled as
none, with no recoverable-error path. -/
theorem append_close_require_idle :
    (∀ (w : Writer) (bs : List Nat) (backend : List Nat → Except Error Unit),
      ObjectWriter.append (State.Idle (some w)) bs backend =
        some (State.Idle (some w), backend bs)) ∧
    (∀ (s : State) (bs : List Nat) (backend : List Nat → Except Error Unit),
      isIdleSome s = false → ObjectWriter.append s bs backend = none) ∧
    (∀ (w : Writer) (backend : Except Error Unit),
      ObjectWriter.close (State.Idle (some w)) backend =
        some (State.Idle (some w), backend)) ∧
    (∀ (s : State) (backend : Except Error Unit),
      isIdleSome s = false → ObjectWriter.close s backend = none) := by
  refine ⟨fun _ _ _ => rfl, ?_, fun _ _ => rfl, ?_⟩
  · intro s bs backend h
    cases s with
    | Idle ow =>
      cases ow with
      | none => rfl
      | some w => simp [isIdleSome] at h
    | Write fut => rfl
    | Close fut => rfl
  · intro s backend h
    cases s with
    | Idle ow =>
      cases ow with
      | none => rfl
      | some w => simp [isIdleSome] at h
    | Write fut => rfl
    | Close fut => rfl

/-- Witness for C10: a Write state left behind by the poll interface and
an exhausted Close state both panic in append and close. -/
theorem append_close_require_idle_wit :
    ObjectWriter.append (State.Write { size := 1, w := none }) []
        (fun _ => .ok ()) = none ∧
    ObjectWriter.close (State.Close { w := none }) (.ok ()) = none :=
  ⟨append_close_require_idle.2.1 _ [] _ rfl,
   append_close_require_idle.2.2.2 _ _ rfl⟩

/-! ### The ownership invariant over session traces -/

/-- Helper: a non-panicking invocation that delivers no backend failure
preserves the exactly-one-owner invariant. -/
theorem step_ownerInv {s s' : State} {op : Op} (h1 : ownerInv s = true)
    (h2 : Op.noErr op = true) (h3 : step s op = some s') : ownerInv s' = true := by
  cases op with
  | flush =>
    simp [step, ObjectWriter.poll_flush, PollResult.nextState] at h3
    subst h3
    exact h1
  | write buf out =>
    cases s with
    | Idle ow =>
      cases ow with
      | none => simp [ownerInv] at h1
      | some w =>
        cases out with
        | pending =>
          simp [step, ObjectWriter.poll_write, pollAppendFut,
            PollResult.nextState] at h3
          subst h3
          rfl
        | ok =>
          simp [step, ObjectWriter.poll_write, pollAppendFut,
            PollResult.nextState] at h3
          subst h3
          rfl
        | err e => simp [Op.noErr] at h2
    | Write fut =>
      cases hw : fut.w with
      | none => simp [ownerInv, hw] at h1
      | some w =>
        cases out with
        | pending =>
          simp [step, ObjectWriter.poll_write, pollAppendFut, hw,
            PollResult.nextState] at h3
          subst h3
          simp [ownerInv, hw]
        | ok =>
          simp [step, ObjectWriter.poll_write, pollAppendFut, hw,
            PollResult.nextState] at h3
          subst h3
          rfl
        | err e => simp [Op.noErr] at h2
    | Close fut =>
      simp [step, ObjectWriter.poll_write, PollResult.nextState] at h3
  | close out =>
    cases s with
    | Idle ow =>
      cases ow with
      | none => simp [ownerInv] at h1
      | some w =>
        cases out with
        | pending =>
          simp [step, ObjectWriter.poll_close, pollCloseFut,
            PollResult.nextState] at h3
          subst h3
          rfl
        | ok =>
          simp [step, ObjectWriter.poll_close, pollCloseFut,
            PollResult.nextState] at h3
          subst h3
          rfl
        | err e => simp [Op.noErr] at h2
    | Write fut =>
      simp [step, ObjectWriter.poll_close, PollResult.nextState] at h3
    | Close fut =>
      cases hw : fut.w with
      | none => simp [ownerInv, hw] at h1
      | some w =>
        cases out with
        | pending =>
          simp [step, ObjectWriter.poll_close, pollCloseFut, hw,
            PollResult.nextState] at h3
          subst h3
          simp [ownerInv, hw]
        | ok =>
          simp [step, ObjectWriter.poll_close, pollCloseFut, hw,
            PollResult.nextState] at h3
          subst h3
          rfl
        | err e => simp [Op.noErr] at h2

/-- Helper: no non-panicking invocation, error-delivering ones included,
ever leaves the session observed in Idle with an empty writer slot. -/
theorem step_notIdleEmpty {s s' : State} {op : Op} (h1 : notIdleEmpty s = true)
    (h3 : step s op = some s') : notIdleEmpty s' = true := by
  cases op with
  | flush =>
    simp [step, ObjectWriter.poll_flush, PollResult.nextState] at h3
    subst h3
    exact h1
  | write buf out =>
    cases s with
    | Idle ow =>
      cases ow with
      | none => simp [notIdleEmpty] at h1
      | some w =>
        cases out <;>
          simp [step, ObjectWriter.poll_write, pollAppendFut,
            PollResult.nextState] at h3 <;>
          subst h3 <;> rfl
    | Write fut =>
      cases hw : fut.w with
      | none =>
        simp [step, ObjectWriter.poll_write, pollAppendFut, hw,
          PollResult.nextState] at h3
      | some w =>
        cases out <;>
          simp [step, ObjectWriter.poll_write, pollAppendFut, hw,
            PollResult.nextState] at h3 <;>
          subst h3 <;> rfl
    | Close fut =>
      simp [step, ObjectWriter.poll_write, PollResult.nextState] at h3
  | close out =>
    cases s with
    | Idle ow =>
      cases ow with
      | none => simp [notIdleEmpty] at h1
      | some w =>
        cases out <;>
          simp [step, ObjectWriter.poll_close, pollCloseFut,
            PollResult.nextState] at h3 <;>
          subst h3 <;> rfl
    | Write fut =>
      simp [step, ObjectWriter.poll_close, PollResult.nextState] at h3
    | Close fut =>
      cases hw : fut.w with
      | none =>
        simp [step, ObjectWriter.poll_close, pollCloseFut, hw,
          PollResult.nextState] at h3
      | some w =>
        cases out <;>
          simp [step, ObjectWriter.poll_close, pollCloseFut, hw,
            PollResult.nextState] at h3 <;>
          subst h3 <;> rfl

/-- C2 counterexample: a single failed append makes the claimed invariant
false. From a fresh session, one poll_write whose backend append fails
reaches the state Write with an exhausted future: the session is in the
Write state but no pending append future owns the Block Writer, so the
claimed trichotomy fails at a reachable observation point. -/
theorem writer_ownership_cex :
    ReachP (fun _ => True) (State.Write { size := 1, w := none }) ∧
    ownerInv (State.Write { size := 1, w := none }) = false :=
  ⟨ReachP.next (State.Idle (some { id := 0 }))
      (State.Write { size := 1, w := none })
      (Op.write [0] (Outcome.err (Error.new ErrorKind.Unexpected "backend 503")))
      (ReachP.init { id := 0 }) trivial rfl,
   rfl⟩

/-- C2 (amended): over every sequence of poll invocations in which no
in-flight operation completes with an error, every reachable state is
exactly one of: Idle holding the Block Writer, Write with a pending
append future owning it, or Close with a pending close future owning it.
Independently of errors, the Idle state never holds an empty writer slot
at an observation point; after an error completion the session instead
remains in Write or Close holding an exhausted future that no longer
owns the Block Writer. -/
theorem writer_state_machine_inv :
    (∀ (s : State), ReachP (fun op => Op.noErr op = true) s →
      ownerInv s = true) ∧
    (∀ (s : State), ReachP (fun _ => True) s → notIdleEmpty s = true) := by
  constructor
  · intro s h
    induction h with
    | init w => rfl
    | next t t' op hr hP hstep ih => exact step_ownerInv ih hP hstep
  · intro s h
    induction h with
    | init w => rfl
    | next t t' op hr hP hstep ih => exact step_notIdleEmpty ih hstep

/-- Witness for C2: a fresh session satisfies both reachability
hypotheses and the invariant. -/
theorem writer_state_machine_inv_wit :
    ownerInv (State.Idle (some { id := 0 })) = true ∧
    notIdleEmpty (State.Idle (some { id := 0 })) = true :=
  ⟨writer_state_machine_inv.1 _ (ReachP.init { id := 0 }),
   writer_state_machine_inv.2 _ (ReachP.init { id := 0 })⟩

end Opendal
